import Mathlib

/-! Verification development for the OpenXR HMD session and frame-loop
controller of sibr_core (src/core/openxr/OpenXRHMD.cpp, OpenXRHMD.hpp,
OpenXRHelper.hpp).

The C++ class OpenXRHMD is shallowly embedded as a pure state machine.
Outcomes of the underlying OpenXR runtime calls (xrBeginSession, xrWaitFrame,
xrAcquireSwapchainImage, ...) are external nondeterminism: every modelled
method takes the outcomes of the runtime calls it may issue as explicit
parameters (an oracle), and otherwise follows the control flow of the C++
source line by line.  Machine integers (XrTime, int64_t) are modelled as Int,
counters (unsigned int, uint32_t) as Nat, C++ float arithmetic on frame rates
as exact rationals, and float angle/pose arithmetic as real numbers.
Callback invocation and logging are side effects on external collaborators;
where a claim mentions a logged warning the model returns a Bool flag for it.
-/

namespace SibrXR

/-- Outcome of one OpenXR runtime call, as observed through XR_SUCCEEDED:
success stands for any non-failing XrResult, error for a failing one. -/
inductive XrResult
  | success
  | error
deriving DecidableEq, Repr

/-- xrCheck (OpenXRHelper.hpp): true on XR_SUCCEEDED(result), false otherwise
(the C++ function additionally prints a diagnostic, not modelled). -/
def xrCheck (r : XrResult) : Bool :=
  r = XrResult.success

/-- The internal simplified status (enum class SessionStatus in OpenXRHMD.hpp). -/
inductive SessionStatus
  | STOPPED
  | IDLE
  | BEGINNING
  | SYNCHRONIZED
  | ENDING
  | FAILURE
deriving DecidableEq, Repr

/-- The runtime-reported XrSessionState values the switch in
updateCurrentSessionState distinguishes. -/
inductive XrSessionState
  | UNKNOWN
  | IDLE
  | READY
  | SYNCHRONIZED
  | VISIBLE
  | FOCUSED
  | STOPPING
  | LOSS_PENDING
  | EXITING
  | MAX_ENUM
deriving DecidableEq, Repr

/-- XrFrameState restricted to the fields the module reads:
predictedDisplayTime, predictedDisplayPeriod (XrTime, i.e. int64_t
nanoseconds) and shouldRender (XrBool32). -/
structure FrameStateData where
  predictedDisplayTime : Int
  predictedDisplayPeriod : Int
  shouldRender : Bool
deriving DecidableEq, Repr

/-- struct FrameRefreshReport (OpenXRHMD.hpp).  The float frame rates are
modelled as exact rationals; the chrono time_point firstFrameTimestamp as an
Int count of nanoseconds. -/
structure FrameRefreshReport where
  nbMissedFrames : Nat
  totalRenderedFrames : Nat
  expectedFramerate : Rat
  measuredFramerate : Rat
  firstFrameTimestamp : Int
deriving DecidableEq, Repr

/-- The OpenXRHMD member state read or written by the modelled methods.
The per-view pose array (views) is modelled separately in the pose-query
section, since no lifecycle method inspects its contents.  Raw runtime
handles are abstracted to liveness flags: m_sessionValid stands for
m_session != XR_NULL_HANDLE, m_playSpaceCreated for m_playSpace having been
created, m_swapchainsAllocated for the three per-view arrays having been
malloc-ed, m_swapchainsReady counts the views whose swapchain and image
array were fully set up, viewsAllocated / projViewsAllocated for the views
and m_projectionViews arrays. -/
structure HMD where
  m_currentState : XrSessionState
  m_status : SessionStatus
  m_sessionValid : Bool
  m_resolution : Int × Int
  m_viewCount : Nat
  m_lastFrameState : FrameStateData
  m_lastFrameRefreshReport : FrameRefreshReport
  m_currentFrameRefreshReport : FrameRefreshReport
  m_playSpaceCreated : Bool
  m_swapchainsAllocated : Bool
  m_swapchainsReady : Nat
  viewsAllocated : Bool
  projViewsAllocated : Bool
deriving DecidableEq, Repr

/-- Member initializers of OpenXRHMD (OpenXRHMD.hpp): status STOPPED,
current state UNKNOWN, null handles, zero resolution and view count. -/
def initialHMD : HMD where
  m_currentState := .UNKNOWN
  m_status := .STOPPED
  m_sessionValid := false
  m_resolution := (0, 0)
  m_viewCount := 0
  m_lastFrameState := ⟨0, 0, false⟩
  m_lastFrameRefreshReport := ⟨0, 0, 0, 0, 0⟩
  m_currentFrameRefreshReport := ⟨0, 0, 0, 0, 0⟩
  m_playSpaceCreated := false
  m_swapchainsAllocated := false
  m_swapchainsReady := 0
  viewsAllocated := false
  projViewsAllocated := false

/-- bool OpenXRHMD::isSessionRunning() const:
return m_status != FAILURE && m_status != STOPPED. -/
def isSessionRunning (s : HMD) : Bool :=
  s.m_status != SessionStatus.FAILURE && s.m_status != SessionStatus.STOPPED

/-- void OpenXRHMD::updateCurrentSessionState(const XrSessionState&).
state is the externally delivered runtime state; callR is the outcome of the
single runtime call the handler for that state may issue (xrBeginSession for
READY, xrEndSession for STOPPING, xrDestroySession for LOSS_PENDING/EXITING;
unused by the other branches).  Callback invocation (m_idleCallback etc.) is
a synchronous call into external code and leaves this state unchanged. -/
def updateCurrentSessionState (s : HMD) (state : XrSessionState) (callR : XrResult) : HMD :=
  let s := { s with m_currentState := state }
  match state with
  | .MAX_ENUM => s
  | .UNKNOWN => s
  | .IDLE => { s with m_status := .IDLE }
  | .SYNCHRONIZED => { s with m_status := .SYNCHRONIZED }
  | .FOCUSED => s
  | .VISIBLE => s
  | .READY =>
    if s.m_status ≠ SessionStatus.BEGINNING then
      if xrCheck callR then { s with m_status := .BEGINNING }
      else { s with m_status := .FAILURE }
    else s
  | .STOPPING =>
    if s.m_status ≠ SessionStatus.ENDING then
      if xrCheck callR then { s with m_status := .ENDING }
      else { s with m_status := .FAILURE }
    else s
  | .LOSS_PENDING =>
    if xrCheck callR then { s with m_sessionValid := false, m_status := .STOPPED }
    else { s with m_status := .FAILURE }
  | .EXITING =>
    if xrCheck callR then { s with m_sessionValid := false, m_status := .STOPPED }
    else { s with m_status := .FAILURE }

/-- One externally delivered session state-change event together with the
outcome of the runtime call its handler may issue. -/
structure SessionEvent where
  state : XrSessionState
  callR : XrResult
deriving DecidableEq, Repr

/-- Processing a sequence of session state-change events through
updateCurrentSessionState, in delivery order. -/
def processEvents (s : HMD) (evs : List SessionEvent) : HMD :=
  evs.foldl (fun t e => updateCurrentSessionState t e.state e.callR) s

/-- bool OpenXRHMD::shouldRender() const:
return m_lastFrameState.shouldRender == XR_TRUE. -/
def shouldRender (s : HMD) : Bool :=
  s.m_lastFrameState.shouldRender

/-- One observable action of the frame-submission protocol: the runtime
calls issued by the two submitFrame overloads, plus the invocation of the
caller-supplied render callback. -/
inductive XrCall
  | beginFrame
  | acquireImage (view : Nat)
  | waitImage (view : Nat)
  | renderCallback (view : Nat) (texture : Nat)
  | releaseImage (view : Nat)
  | endFrame (layerCount : Nat)
deriving DecidableEq, Repr

/-- Recognizes an xrEndFrame call in a trace. -/
def isEndFrameCall : XrCall → Bool
  | .endFrame _ => true
  | _ => false

/-- Recognizes a render-callback invocation in a trace. -/
def isRenderCallbackCall : XrCall → Bool
  | .renderCallback _ _ => true
  | _ => false

/-- External nondeterminism for one submitFrame invocation: outcomes of
xrBeginFrame / xrEndFrame, per-view outcomes of
xrAcquireSwapchainImage / xrWaitSwapchainImage / xrReleaseSwapchainImage,
the image index the runtime returns from acquire, the GL texture stored in
m_swapchainsImages[view][index], and the two clock samples taken by
updateRefreshReport (converted XrTime now and the chrono wall clock). -/
structure FrameOracle where
  beginFrame : XrResult
  endFrame : XrResult
  acquire : Nat → XrResult
  waitImage : Nat → XrResult
  release : Nat → XrResult
  acquiredIndex : Nat → Nat
  texture : Nat → Nat → Nat
  nowNs : Int
  nowClk : Int

/-- bool OpenXRHMD::submitFrame(): xrBeginFrame; on success, xrEndFrame with
zero composition layers.  Returns the method result, and the trace of calls
issued.  The member state is untouched (in particular the refresh report is
not updated on this path). -/
def submitFrameEmpty (beginR endR : XrResult) (s : HMD) : HMD × Bool × List XrCall :=
  if xrCheck beginR then
    (s, xrCheck endR, [XrCall.beginFrame, XrCall.endFrame 0])
  else
    (s, false, [XrCall.beginFrame])

/-- void OpenXRHMD::updateRefreshReport().  nowNs is the converted
performance-counter/timespec sample, nowClk the chrono wall-clock sample.
Increment nbMissedFrames when predictedDisplayTime - now is negative, then
totalRenderedFrames, set expectedFramerate = 1e9 / predictedDisplayPeriod;
when the window reaches 100 frames, compute measuredFramerate
(1000 * frames / elapsed-milliseconds, duration_cast truncating toward
zero), publish the window as m_lastFrameRefreshReport and start a fresh
window stamped with the current wall clock. -/
def updateRefreshReport (nowNs nowClk : Int) (s : HMD) : HMD :=
  let cur := s.m_currentFrameRefreshReport
  let cur := if s.m_lastFrameState.predictedDisplayTime - nowNs < 0 then
      { cur with nbMissedFrames := cur.nbMissedFrames + 1 }
    else cur
  let cur := { cur with
    totalRenderedFrames := cur.totalRenderedFrames + 1,
    expectedFramerate := 1000000000 / (s.m_lastFrameState.predictedDisplayPeriod : Rat) }
  if cur.totalRenderedFrames = 100 then
    let cur := { cur with
      measuredFramerate := 1000 * (cur.totalRenderedFrames : Rat)
        / (((nowClk - cur.firstFrameTimestamp).tdiv 1000000 : Int) : Rat) }
    { s with m_lastFrameRefreshReport := cur,
             m_currentFrameRefreshReport := ⟨0, 0, 0, 0, nowClk⟩ }
  else
    { s with m_currentFrameRefreshReport := cur }

/-- The per-view loop of submitFrame(RenderFunc), processing views
i, i+1, ..., i+k-1: acquire, wait, render callback, release per view; any
failing acquire/wait/release breaks out of the loop.  Returns the trace of
calls issued. -/
def viewLoopFrom (o : FrameOracle) : Nat → Nat → List XrCall
  | _, 0 => []
  | i, k + 1 =>
    if xrCheck (o.acquire i) then
      if xrCheck (o.waitImage i) then
        if xrCheck (o.release i) then
          XrCall.acquireImage i :: XrCall.waitImage i
            :: XrCall.renderCallback i (o.texture i (o.acquiredIndex i))
            :: XrCall.releaseImage i :: viewLoopFrom o (i + 1) k
        else
          [XrCall.acquireImage i, XrCall.waitImage i,
           XrCall.renderCallback i (o.texture i (o.acquiredIndex i)),
           XrCall.releaseImage i]
      else
        [XrCall.acquireImage i, XrCall.waitImage i]
    else
      [XrCall.acquireImage i]

/-- bool OpenXRHMD::submitFrame(RenderFunc renderFunc).  If shouldRender()
is false, delegate to the empty submitFrame and return true (discarding its
result).  Otherwise xrBeginFrame (false on failure); run the per-view
acquire/wait/render/release loop; updateRefreshReport; xrEndFrame with the
single projection layer (its result is the method result). -/
def submitFrameRender (o : FrameOracle) (s : HMD) : HMD × Bool × List XrCall :=
  if shouldRender s = false then
    ((submitFrameEmpty o.beginFrame o.endFrame s).1, true,
      (submitFrameEmpty o.beginFrame o.endFrame s).2.2)
  else
    if xrCheck o.beginFrame then
      (updateRefreshReport o.nowNs o.nowClk s, xrCheck o.endFrame,
        XrCall.beginFrame :: (viewLoopFrom o 0 s.m_viewCount ++ [XrCall.endFrame 1]))
    else
      (s, false, [XrCall.beginFrame])

/-- Concrete member state used in witnesses: a synchronized session whose
accumulating report already holds 5 frames and whose last waited frame asks
for rendering. -/
def runningHMD : HMD :=
  { initialHMD with
    m_status := .SYNCHRONIZED
    m_currentState := .SYNCHRONIZED
    m_sessionValid := true
    m_viewCount := 2
    m_lastFrameState := ⟨1000, 16000000, true⟩
    m_currentFrameRefreshReport := ⟨0, 5, 60, 0, 0⟩ }

/-- Concrete frame oracle used in witnesses: begin succeeds, acquire fails
for view 0, everything else succeeds. -/
def acquireFailOracle : FrameOracle :=
  { beginFrame := .success
    endFrame := .success
    acquire := fun _ => .error
    waitImage := fun _ => .success
    release := fun _ => .success
    acquiredIndex := fun _ => 0
    texture := fun _ _ => 7
    nowNs := 500
    nowClk := 2000000 }

/-- Repeated submit cycles seen at the report level: cycle k first stores
the waited frame state fr k into m_lastFrameState (as a successful
xrWaitFrame does) and then runs updateRefreshReport with the two clock
samples of that cycle. -/
def runReportCycles (fr : Nat → FrameStateData) (nowNs nowClk : Nat → Int)
    (s : HMD) : Nat → HMD
  | 0 => s
  | k + 1 =>
    updateRefreshReport (nowNs k) (nowClk k)
      { runReportCycles fr nowNs nowClk s k with m_lastFrameState := fr k }

/-- Concrete cycle inputs for the refresh-report witness: fixed period
16000000 ns, predicted display time far in the future, counter clock 0,
wall clock 50 ms per frame. -/
def steadyFrames : Nat → FrameStateData := fun _ => ⟨1000000000000, 16000000, true⟩

/-- Wall-clock samples for the refresh-report witness. -/
def steadyClock : Nat → Int := fun k => (k + 1) * 50000000

/-- One runtime event as delivered by xrPollEvent, carrying the outcomes of
the runtime calls its handler issues.  The switch case for
XR_TYPE_EVENT_DATA_INSTANCE_LOSS_PENDING in pollEvents lacks a break and
falls through into the XR_TYPE_EVENT_DATA_SESSION_STATE_CHANGED case, which
reinterprets the event buffer: garbage models the XrSessionState field read
from that reinterpretation, garbageCallR the outcome of the runtime call
the state handler then issues.  The SESSION_STATE_CHANGED case itself falls
into the INTERACTION_PROFILE_CHANGED no-op, which only breaks. -/
inductive RuntimeEvent
  | instanceLossPending (destroyInstanceR : XrResult) (garbage : XrSessionState)
      (garbageCallR : XrResult)
  | sessionStateChanged (state : XrSessionState) (callR : XrResult)
  | interactionProfileChanged
  | unhandled
deriving DecidableEq, Repr

/-- Result of one xrPollEvent call: an event, XR_EVENT_UNAVAILABLE, or a
polling failure (only logged by the source). -/
inductive PollResult
  | event (e : RuntimeEvent)
  | unavailable
  | pollError
deriving DecidableEq, Repr

/-- External nondeterminism for one pollEvents level: the polled event and
the outcomes of the wait / empty-submit pump performed while BEGINNING. -/
structure StepData where
  poll : PollResult
  waitR : XrResult
  locateR : XrResult
  waitedFrame : FrameStateData
  beginR : XrResult
  endR : XrResult
deriving DecidableEq, Repr

/-- The event dispatch switch of pollEvents, including the missing-break
fall-through from INSTANCE_LOSS_PENDING (destroy the instance, FAILURE on a
failing destroy, then run the session-state handler on the reinterpreted
buffer). -/
def handleEvent (s : HMD) : RuntimeEvent → HMD
  | .instanceLossPending dR g gR =>
    updateCurrentSessionState
      (if xrCheck dR then s else { s with m_status := .FAILURE }) g gR
  | .sessionStateChanged st r => updateCurrentSessionState s st r
  | .interactionProfileChanged => s
  | .unhandled => s

/-- One xrPollEvent call and its dispatch: XR_EVENT_UNAVAILABLE and polling
failures leave the state unchanged (the latter only logs a warning). -/
def pollOnce (d : StepData) (s : HMD) : HMD :=
  match d.poll with
  | .event e => handleEvent s e
  | .unavailable => s
  | .pollError => s

/-- bool OpenXRHMD::waitNextFrame(): reset m_lastFrameState, xrWaitFrame
(filling it on success; false on failure), sample the clock, then
xrLocateViews (false on failure; the per-view poses it writes are modelled
in the pose-query section). -/
def waitNextFrame (d : StepData) (s : HMD) : HMD × Bool :=
  if xrCheck d.waitR then
    if xrCheck d.locateR then ({ s with m_lastFrameState := d.waitedFrame }, true)
    else ({ s with m_lastFrameState := d.waitedFrame }, false)
  else ({ s with m_lastFrameState := ⟨0, 0, false⟩ }, false)

/-- The state after one pollEvents level: dispatch the polled event, then,
while the status is BEGINNING, pump one waitNextFrame(); submitFrame()
empty-frame cycle (both results discarded by the source). -/
def pollStepState (d : StepData) (s : HMD) : HMD :=
  if (pollOnce d s).m_status = SessionStatus.BEGINNING then
    (submitFrameEmpty d.beginR d.endR (waitNextFrame d (pollOnce d s)).1).1
  else pollOnce d s

/-- bool OpenXRHMD::pollEvents(), its self-recursion while the status is
BEGINNING or ENDING made explicit through fuel.  ev idx supplies the
external data of the idx-th poll step; the result is the state, the next
step index, and some (m_status != FAILURE), or none when the recursion
exceeds the fuel (modelling a non-terminating recursion). -/
def pollEventsFuel (ev : Nat → StepData) : Nat → HMD → Nat → HMD × Nat × Option Bool
  | 0, s, idx => (s, idx, none)
  | fuel + 1, s, idx =>
    if (pollOnce (ev idx) s).m_status = SessionStatus.BEGINNING
        ∨ (pollOnce (ev idx) s).m_status = SessionStatus.ENDING then
      pollEventsFuel ev fuel (pollStepState (ev idx) s) (idx + 1)
    else
      (pollStepState (ev idx) s, idx + 1,
        some ((pollStepState (ev idx) s).m_status != SessionStatus.FAILURE))

/-- bool OpenXRHMD::synchronizeSession(): keep polling events until the
status is SYNCHRONIZED (returning true), returning false as soon as the
status is FAILURE; fuel bounds both loops, none modelling divergence. -/
def synchronizeSessionFuel (ev : Nat → StepData) : Nat → HMD → Nat → HMD × Nat × Option Bool
  | 0, s, idx => (s, idx, none)
  | fuel + 1, s, idx =>
    if s.m_status = SessionStatus.SYNCHRONIZED then (s, idx, some true)
    else
      match pollEventsFuel ev fuel s idx with
      | (s₁, idx₁, none) => (s₁, idx₁, none)
      | (s₁, idx₁, some _) =>
        if s₁.m_status = SessionStatus.FAILURE then (s₁, idx₁, some false)
        else synchronizeSessionFuel ev fuel s₁ idx₁

/-- External nondeterminism for the startSession stages: glewInit and the
outcomes of the runtime calls of createSession, createReferenceSpace and
createSwapchain (per view for the swapchain loop). -/
structure StartOracle where
  glewOk : Bool
  createSessionR : XrResult
  createRefSpaceR : XrResult
  enumFormatsCountR : XrResult
  enumFormatsR : XrResult
  createSwapchainR : Nat → XrResult
  enumImagesCountR : Nat → XrResult
  enumImagesR : Nat → XrResult

/-- bool OpenXRHMD::createSession(...): xrCreateSession, false on failure. -/
def createSession (o : StartOracle) (s : HMD) : HMD × Bool :=
  if xrCheck o.createSessionR then ({ s with m_sessionValid := true }, true)
  else (s, false)

/-- bool OpenXRHMD::createReferenceSpace(): xrCreateReferenceSpace with the
identity pose and the play-space type fixed at construction, false on
failure. -/
def createReferenceSpace (o : StartOracle) (s : HMD) : HMD × Bool :=
  if xrCheck o.createRefSpaceR then ({ s with m_playSpaceCreated := true }, true)
  else (s, false)

/-- The per-view loop of createSwapchain, processing k remaining views from
index i: xrCreateSwapchain, then xrEnumerateSwapchainImages (count, then
fill); any failure returns false at once, leaving the arrays partially set
up (m_swapchainsReady counts the fully set-up views). -/
def swapchainViewLoop (o : StartOracle) : Nat → Nat → HMD → HMD × Bool
  | _, 0, s => (s, true)
  | i, k + 1, s =>
    if xrCheck (o.createSwapchainR i) then
      if xrCheck (o.enumImagesCountR i) then
        if xrCheck (o.enumImagesR i) then
          swapchainViewLoop o (i + 1) k
            { s with m_swapchainsReady := s.m_swapchainsReady + 1 }
        else (s, false)
      else (s, false)
    else (s, false)

/-- bool OpenXRHMD::createSwapchain(): enumerate the supported formats (the
sRGB-preferred format chosen through selectSwapchainFormat is stored only
into the per-view creation info and is not tracked here), allocate the
three per-view arrays fresh, run the per-view creation loop, then allocate
the views and m_projectionViews arrays. -/
def createSwapchain (o : StartOracle) (s : HMD) : HMD × Bool :=
  if xrCheck o.enumFormatsCountR then
    if xrCheck o.enumFormatsR then
      match swapchainViewLoop o 0 s.m_viewCount
          { s with m_swapchainsAllocated := true, m_swapchainsReady := 0 } with
      | (s₁, true) => ({ s₁ with viewsAllocated := true, projViewsAllocated := true }, true)
      | (s₁, false) => (s₁, false)
    else (s, false)
  else (s, false)

/-- The four stages of startSession, in source order. -/
inductive Stage
  | createSessionStage
  | createRefSpaceStage
  | createSwapchainStage
  | synchronizeStage
deriving DecidableEq, Repr

/-- bool OpenXRHMD::startSession(T): glewInit (false on failure), then
createSession && createReferenceSpace && createSwapchain &&
synchronizeSession, short-circuiting.  Also returns the stages attempted,
in order; none models a diverging synchronize loop. -/
def startSession (o : StartOracle) (ev : Nat → StepData) (fuel : Nat) (s : HMD) :
    HMD × List Stage × Option Bool :=
  if o.glewOk = false then (s, [], some false)
  else if (createSession o s).2 = false then
    ((createSession o s).1, [Stage.createSessionStage], some false)
  else if (createReferenceSpace o (createSession o s).1).2 = false then
    ((createReferenceSpace o (createSession o s).1).1,
      [Stage.createSessionStage, Stage.createRefSpaceStage], some false)
  else if (createSwapchain o (createReferenceSpace o (createSession o s).1).1).2 = false then
    ((createSwapchain o (createReferenceSpace o (createSession o s).1).1).1,
      [Stage.createSessionStage, Stage.createRefSpaceStage, Stage.createSwapchainStage],
      some false)
  else
    ((synchronizeSessionFuel ev fuel
        (createSwapchain o (createReferenceSpace o (createSession o s).1).1).1 0).1,
      [Stage.createSessionStage, Stage.createRefSpaceStage, Stage.createSwapchainStage,
        Stage.synchronizeStage],
      (synchronizeSessionFuel ev fuel
        (createSwapchain o (createReferenceSpace o (createSession o s).1).1).1 0).2.2)

/-- The event-polling loop of closeSession (while isSessionRunning, poll),
fueled; the Bool marks normal exit, false marking fuel exhaustion. -/
def closeSessionLoop (ev : Nat → StepData) : Nat → HMD → Nat → HMD × Nat × Bool
  | 0, s, idx => (s, idx, !isSessionRunning s)
  | fuel + 1, s, idx =>
    if isSessionRunning s then
      match pollEventsFuel ev fuel s idx with
      | (s₁, idx₁, none) => (s₁, idx₁, false)
      | (s₁, idx₁, some _) => closeSessionLoop ev fuel s₁ idx₁
    else (s, idx, true)

/-- bool OpenXRHMD::closeSession().  If the status is IDLE, destroy the
session at once (a failing xrDestroySession sets FAILURE, which the very
next line overwrites with STOPPED); otherwise, unless already STOPPED,
xrRequestExitSession (FAILURE and false when that call fails) and poll
until the session stops running.  The method ends with
return m_status != SessionStatus::STOPPED; none models a non-terminating
polling loop. -/
def closeSession (destroyR requestExitR : XrResult) (ev : Nat → StepData) (fuel : Nat)
    (s : HMD) : HMD × Option Bool :=
  if s.m_status = SessionStatus.IDLE then
    ({ (if xrCheck destroyR then s else { s with m_status := SessionStatus.FAILURE }) with
        m_sessionValid := false, m_status := SessionStatus.STOPPED },
      some ({ (if xrCheck destroyR then s
               else { s with m_status := SessionStatus.FAILURE }) with
          m_sessionValid := false,
          m_status := SessionStatus.STOPPED }.m_status != SessionStatus.STOPPED))
  else if s.m_status ≠ SessionStatus.STOPPED then
    if xrCheck requestExitR then
      match closeSessionLoop ev fuel s 0 with
      | (s₁, _, true) => (s₁, some (s₁.m_status != SessionStatus.STOPPED))
      | (s₁, _, false) => (s₁, none)
    else ({ s with m_status := .FAILURE }, some false)
  else (s, some (s.m_status != SessionStatus.STOPPED))

/-- void OpenXRHMD::setResolution(...): store the resolution unless a
session is running, otherwise warn (the returned Bool) and keep the stored
value; the C++ method returns void either way. -/
def setResolution (s : HMD) (res : Int × Int) : HMD × Bool :=
  if isSessionRunning s = false then ({ s with m_resolution := res }, false)
  else (s, true)

/-- const Eigen::Vector2i& OpenXRHMD::getResolution() const. -/
def getResolution (s : HMD) : Int × Int :=
  s.m_resolution

/-- Concrete poll step used in witnesses: the runtime reports
SYNCHRONIZED and every runtime call succeeds. -/
def syncStep : StepData :=
  { poll := .event (.sessionStateChanged .SYNCHRONIZED .success)
    waitR := .success
    locateR := .success
    waitedFrame := ⟨0, 0, false⟩
    beginR := .success
    endR := .success }

/-- Concrete poll step used for closeSession: the runtime reports READY and
the xrBeginSession issued by the handler fails, forcing FAILURE. -/
def failDuringCloseStep : StepData :=
  { syncStep with poll := .event (.sessionStateChanged .READY .error) }

/-- Concrete state with an IDLE session, for the closeSession evaluation. -/
def idleCloseHMD : HMD :=
  { initialHMD with m_status := .IDLE, m_currentState := .IDLE, m_sessionValid := true }

/-- Start oracle where every stage succeeds. -/
def allOkStart : StartOracle :=
  { glewOk := true
    createSessionR := .success
    createRefSpaceR := .success
    enumFormatsCountR := .success
    enumFormatsR := .success
    createSwapchainR := fun _ => .success
    enumImagesCountR := fun _ => .success
    enumImagesR := fun _ => .success }

/-- Fresh state after a successful init discovering two views. -/
def twoViewInit : HMD :=
  { initialHMD with m_viewCount := 2 }

/-- The fields populated by the startSession stages that event polling
never touches: b keeps the reference space, swapchain arrays, view arrays
and view count of a. -/
def setupIntact (a b : HMD) : Prop :=
  b.m_playSpaceCreated = a.m_playSpaceCreated
  ∧ b.m_swapchainsAllocated = a.m_swapchainsAllocated
  ∧ b.m_swapchainsReady = a.m_swapchainsReady
  ∧ b.viewsAllocated = a.viewsAllocated
  ∧ b.projViewsAllocated = a.projViewsAllocated
  ∧ b.m_viewCount = a.m_viewCount

/-- enum class Eye (OpenXRHMD.hpp): LEFT = 0, RIGHT = 1. -/
inductive Eye
  | LEFT
  | RIGHT
deriving DecidableEq, Repr

/-- enum class AngleUnit (OpenXRHMD.hpp). -/
inductive AngleUnit
  | RADIAN
  | DEGREE
deriving DecidableEq, Repr

/-- uint32_t OpenXRHMD::eyeToViewIndex(Eye): the underlying enum value. -/
def eyeToViewIndex : Eye → Nat
  | .LEFT => 0
  | .RIGHT => 1

/-- XrQuaternionf, with the float components modelled as reals. -/
structure XrQuaternionfR where
  x : Real
  y : Real
  z : Real
  w : Real

/-- XrVector3f. -/
structure XrVector3fR where
  x : Real
  y : Real
  z : Real

/-- XrFovf: the four field-of-view angles in radians. -/
structure XrFovfR where
  angleLeft : Real
  angleRight : Real
  angleUp : Real
  angleDown : Real

/-- XrView restricted to the fields the query accessors read (the pose
orientation and position and the field of view of one eye). -/
structure XrViewR where
  orientation : XrQuaternionfR
  position : XrVector3fR
  fov : XrFovfR

noncomputable section

/-- C-style atan2 on reals, the std::atan2 used by the quaternion-to-Euler
conversion. -/
def atan2R (y x : Real) : Real :=
  if 0 < x then Real.arctan (y / x)
  else if x < 0 ∧ 0 ≤ y then Real.arctan (y / x) + Real.pi
  else if x < 0 ∧ y < 0 then Real.arctan (y / x) - Real.pi
  else if x = 0 ∧ 0 < y then Real.pi / 2
  else if x = 0 ∧ y < 0 then -(Real.pi / 2)
  else 0

/-- Eigen::Vector3f OpenXRHMD::quaternionToEulerAngles(const XrQuaternionf&):
the (roll, pitch, yaw) triple computed by the standard conversion. -/
def quaternionToEulerAngles (q : XrQuaternionfR) : Real × Real × Real :=
  (atan2R (2 * (q.w * q.x + q.y * q.z)) (1 - 2 * (q.x * q.x + q.y * q.y)),
    2 * atan2R (Real.sqrt (1 + 2 * (q.w * q.y - q.x * q.z)))
        (Real.sqrt (1 - 2 * (q.w * q.y - q.x * q.z)))
      - Real.pi / 2,
    atan2R (2 * (q.w * q.z + q.x * q.y)) (1 - 2 * (q.y * q.y + q.z * q.z)))

/-- radianToDegree (OpenXRHelper.hpp): value * 180 / pi. -/
def radianToDegree (v : Real) : Real :=
  v * 180 / Real.pi

/-- Eigen::Vector3f OpenXRHMD::getPoseOrientation(Eye, AngleUnit): when the
view index is at least the discovered view count, log a warning (the Bool)
and return the zero vector; otherwise the Euler angles of the view pose
orientation, converted per the requested unit. -/
def getPoseOrientation (viewCount : Nat) (views : Nat → XrViewR) (eye : Eye)
    (unit : AngleUnit) : Bool × (Real × Real × Real) :=
  if viewCount ≤ eyeToViewIndex eye then (true, (0, 0, 0))
  else
    (false,
      if unit = AngleUnit.RADIAN then
        quaternionToEulerAngles (views (eyeToViewIndex eye)).orientation
      else
        (radianToDegree (quaternionToEulerAngles
            (views (eyeToViewIndex eye)).orientation).1,
          radianToDegree (quaternionToEulerAngles
            (views (eyeToViewIndex eye)).orientation).2.1,
          radianToDegree (quaternionToEulerAngles
            (views (eyeToViewIndex eye)).orientation).2.2))

/-- Eigen::Quaternionf OpenXRHMD::getPoseQuaternion(Eye): when the view
index is at least the view count, log the warning and return Quaternionf().
The Eigen default constructor leaves the coefficients uninitialized: junk
stands for whatever the uninitialized storage holds.  In range, the view
pose orientation is returned. -/
def getPoseQuaternion (viewCount : Nat) (views : Nat → XrViewR) (junk : XrQuaternionfR)
    (eye : Eye) : Bool × XrQuaternionfR :=
  if viewCount ≤ eyeToViewIndex eye then (true, junk)
  else (false, (views (eyeToViewIndex eye)).orientation)

/-- Eigen::Vector3f OpenXRHMD::getPosePosition(Eye): zero vector with a
warning out of range, otherwise the view pose position. -/
def getPosePosition (viewCount : Nat) (views : Nat → XrViewR) (eye : Eye) :
    Bool × (Real × Real × Real) :=
  if viewCount ≤ eyeToViewIndex eye then (true, (0, 0, 0))
  else
    (false, ((views (eyeToViewIndex eye)).position.x,
      (views (eyeToViewIndex eye)).position.y,
      (views (eyeToViewIndex eye)).position.z))

/-- Eigen::Vector4f OpenXRHMD::getFieldOfView(Eye, AngleUnit): zero vector
with a warning out of range, otherwise (angleLeft, angleRight, angleDown,
angleUp), converted per the requested unit. -/
def getFieldOfView (viewCount : Nat) (views : Nat → XrViewR) (eye : Eye)
    (unit : AngleUnit) : Bool × (Real × Real × Real × Real) :=
  if viewCount ≤ eyeToViewIndex eye then (true, (0, 0, 0, 0))
  else
    (false,
      if unit = AngleUnit.RADIAN then
        ((views (eyeToViewIndex eye)).fov.angleLeft,
          (views (eyeToViewIndex eye)).fov.angleRight,
          (views (eyeToViewIndex eye)).fov.angleDown,
          (views (eyeToViewIndex eye)).fov.angleUp)
      else
        (radianToDegree (views (eyeToViewIndex eye)).fov.angleLeft,
          radianToDegree (views (eyeToViewIndex eye)).fov.angleRight,
          radianToDegree (views (eyeToViewIndex eye)).fov.angleDown,
          radianToDegree (views (eyeToViewIndex eye)).fov.angleUp))

/-- Eigen::Vector2f OpenXRHMD::getScreenCenter(Eye): zero vector with a
warning out of range, otherwise
(tan|angleLeft| / (tan|angleLeft| + tan|angleRight|),
 tan|angleDown| / (tan|angleDown| + tan|angleUp|)). -/
def getScreenCenter (viewCount : Nat) (views : Nat → XrViewR) (eye : Eye) :
    Bool × (Real × Real) :=
  if viewCount ≤ eyeToViewIndex eye then (true, (0, 0))
  else
    (false,
      (Real.tan |(views (eyeToViewIndex eye)).fov.angleLeft|
          / (Real.tan |(views (eyeToViewIndex eye)).fov.angleLeft|
            + Real.tan |(views (eyeToViewIndex eye)).fov.angleRight|),
        Real.tan |(views (eyeToViewIndex eye)).fov.angleDown|
          / (Real.tan |(views (eyeToViewIndex eye)).fov.angleDown|
            + Real.tan |(views (eyeToViewIndex eye)).fov.angleUp|)))

/-- Concrete per-view data with symmetric field-of-view angles of magnitude
pi/4, used in witnesses. -/
def symmetricFovViews : Nat → XrViewR := fun _ =>
  { orientation := ⟨0, 0, 0, 1⟩
    position := ⟨0, 0, 0⟩
    fov := ⟨-(Real.pi / 4), Real.pi / 4, Real.pi / 4, -(Real.pi / 4)⟩ }

end

/-- C1 counterexample.  From the initial state, a READY event whose
xrBeginSession call fails sets the status to FAILURE; a following IDLE event
then overwrites FAILURE with IDLE, so FAILURE is not absorbing under
updateCurrentSessionState. -/
theorem c1_failure_not_absorbing :
    (processEvents initialHMD [⟨.READY, .error⟩]).m_status = SessionStatus.FAILURE
    ∧ (processEvents initialHMD [⟨.READY, .error⟩, ⟨.IDLE, .success⟩]).m_status
        = SessionStatus.IDLE := by
  constructor <;> rfl

/-- C1 (amended).  Once the status is FAILURE it stays FAILURE across any
sequence of events whose handlers leave the status untouched (VISIBLE,
FOCUSED, UNKNOWN and the sentinel MAX_ENUM); and isSessionRunning is false
exactly when the status is FAILURE or STOPPED. -/
theorem c1_amended (s : HMD) (evs : List SessionEvent)
    (hfail : s.m_status = SessionStatus.FAILURE)
    (hevs : ∀ e ∈ evs, e.state = XrSessionState.VISIBLE ∨ e.state = XrSessionState.FOCUSED
      ∨ e.state = XrSessionState.UNKNOWN ∨ e.state = XrSessionState.MAX_ENUM) :
    (processEvents s evs).m_status = SessionStatus.FAILURE
    ∧ ∀ t : HMD, isSessionRunning t = false
        ↔ (t.m_status = SessionStatus.FAILURE ∨ t.m_status = SessionStatus.STOPPED) := by
  constructor
  · induction evs generalizing s with
    | nil => exact hfail
    | cons e rest ih =>
      have he := hevs e (List.mem_cons_self e rest)
      have hstep : (updateCurrentSessionState s e.state e.callR).m_status
          = SessionStatus.FAILURE := by
        rcases he with h | h | h | h <;>
          simp [updateCurrentSessionState, h, hfail]
      exact ih _ hstep (fun e' he' => hevs e' (List.mem_cons_of_mem e he'))
  · intro t
    unfold isSessionRunning
    rcases t with ⟨_, st, _⟩
    cases st <;> simp

/-- C1 witness: concrete FAILURE state and a VISIBLE-then-UNKNOWN event
sequence; the status is still FAILURE afterwards and isSessionRunning is
false there. -/
theorem c1_witness :
    (processEvents { initialHMD with m_status := .FAILURE }
        [⟨.VISIBLE, .success⟩, ⟨.UNKNOWN, .success⟩]).m_status = SessionStatus.FAILURE
    ∧ isSessionRunning { initialHMD with m_status := .FAILURE } = false := by
  have h := c1_amended { initialHMD with m_status := .FAILURE }
    [⟨.VISIBLE, .success⟩, ⟨.UNKNOWN, .success⟩] rfl (by decide)
  exact ⟨h.1, (h.2 _).mpr (Or.inl rfl)⟩

/-- Helper: the per-view loop never issues xrEndFrame. -/
theorem viewLoopFrom_countP_endFrame (o : FrameOracle) :
    ∀ k i, (viewLoopFrom o i k).countP isEndFrameCall = 0 := by
  intro k
  induction k with
  | zero => intro i; rfl
  | succ k ih =>
    intro i
    unfold viewLoopFrom
    by_cases h1 : xrCheck (o.acquire i) <;>
      by_cases h2 : xrCheck (o.waitImage i) <;>
        by_cases h3 : xrCheck (o.release i) <;>
          simp [h1, h2, h3, List.countP_cons, isEndFrameCall, ih]

/-- Helper: if the per-view loop starting at view i reaches view j (issues
its acquire call), then every earlier view from i on passed all three of
acquire, wait and release. -/
theorem viewLoopFrom_acquire_mem (o : FrameOracle) :
    ∀ k i j, XrCall.acquireImage j ∈ viewLoopFrom o i k →
      i ≤ j ∧ ∀ m, i ≤ m → m < j →
        xrCheck (o.acquire m) = true ∧ xrCheck (o.waitImage m) = true
          ∧ xrCheck (o.release m) = true := by
  intro k
  induction k with
  | zero => intro i j h; simp [viewLoopFrom] at h
  | succ k ih =>
    intro i j h
    unfold viewLoopFrom at h
    by_cases h1 : xrCheck (o.acquire i)
    · rw [if_pos h1] at h
      by_cases h2 : xrCheck (o.waitImage i)
      · rw [if_pos h2] at h
        by_cases h3 : xrCheck (o.release i)
        · rw [if_pos h3] at h
          simp only [List.mem_cons] at h
          rcases h with h | h | h | h | h
          · injection h with hji
            subst hji
            exact ⟨le_rfl, fun m hm1 hm2 => absurd hm2 (by omega)⟩
          · simp at h
          · simp at h
          · simp at h
          · obtain ⟨hij, hall⟩ := ih (i + 1) j h
            refine ⟨by omega, fun m hm1 hm2 => ?_⟩
            rcases eq_or_lt_of_le hm1 with heq | hlt
            · subst heq
              exact ⟨h1, h2, h3⟩
            · exact hall m (by omega) hm2
        · rw [if_neg h3] at h
          simp only [List.mem_cons, List.not_mem_nil, or_false] at h
          rcases h with h | h | h | h
          · injection h with hji
            subst hji
            exact ⟨le_rfl, fun m hm1 hm2 => absurd hm2 (by omega)⟩
          · simp at h
          · simp at h
          · simp at h
      · rw [if_neg h2] at h
        simp only [List.mem_cons, List.not_mem_nil, or_false] at h
        rcases h with h | h
        · injection h with hji
          subst hji
          exact ⟨le_rfl, fun m hm1 hm2 => absurd hm2 (by omega)⟩
        · simp at h
    · rw [if_neg h1] at h
      simp only [List.mem_cons, List.not_mem_nil, or_false] at h
      injection h with hji
      subst hji
      exact ⟨le_rfl, fun m hm1 hm2 => absurd hm2 (by omega)⟩

/-- C2: in every submitFrame(renderFunc) invocation whose begin-frame call
succeeds, exactly one end-frame call appears in the issued trace, and a
per-view acquire/wait/release failure skips all remaining views (view j is
reached only if every earlier view passed acquire, wait and release). -/
theorem c2_begin_end_paired (o : FrameOracle) (s : HMD)
    (h : o.beginFrame = XrResult.success) :
    ((submitFrameRender o s).2.2.countP isEndFrameCall = 1)
    ∧ (∀ j, XrCall.acquireImage j ∈ (submitFrameRender o s).2.2 →
        ∀ m, m < j →
          xrCheck (o.acquire m) = true ∧ xrCheck (o.waitImage m) = true
            ∧ xrCheck (o.release m) = true) := by
  unfold submitFrameRender
  by_cases hsr : shouldRender s = false
  · rw [if_pos hsr]
    unfold submitFrameEmpty
    rw [if_pos (by simp [xrCheck, h])]
    exact ⟨rfl, by intro j hj m hm; simp at hj⟩
  · rw [if_neg hsr, if_pos (by simp [xrCheck, h])]
    constructor
    · simp [List.countP_cons, List.countP_append, isEndFrameCall,
        viewLoopFrom_countP_endFrame]
    · intro j hj m hm
      simp only [List.mem_cons, List.mem_append] at hj
      rcases hj with hj | hj | hj
      · simp at hj
      · exact (viewLoopFrom_acquire_mem o _ 0 j hj).2 m (Nat.zero_le m) hm
      · simp at hj

/-- C2 witness: begin succeeds and acquire fails at view 0 for a two-view
session; the trace still carries exactly one end-frame call. -/
theorem c2_witness :
    (submitFrameRender acquireFailOracle runningHMD).2.2.countP isEndFrameCall = 1 :=
  (c2_begin_end_paired acquireFailOracle runningHMD rfl).1

/-- C10: when shouldRender() is false, submitFrame(renderFunc) leaves the
state unchanged, returns true whatever the empty submission outcomes are,
issues exactly the empty-submission trace, and never invokes the render
callback. -/
theorem c10_norender_empty_true (o : FrameOracle) (s : HMD)
    (h : shouldRender s = false) :
    (submitFrameRender o s).1 = s
    ∧ (submitFrameRender o s).2.1 = true
    ∧ (submitFrameRender o s).2.2 = (submitFrameEmpty o.beginFrame o.endFrame s).2.2
    ∧ ∀ c ∈ (submitFrameRender o s).2.2, isRenderCallbackCall c = false := by
  unfold submitFrameRender
  rw [if_pos h]
  refine ⟨?_, rfl, rfl, ?_⟩
  · unfold submitFrameEmpty
    split <;> rfl
  · unfold submitFrameEmpty
    split <;> simp [isRenderCallbackCall]

/-- C10 witness: shouldRender is false and even the nested begin-frame call
fails; submitFrame(renderFunc) still returns true. -/
theorem c10_witness :
    (submitFrameRender { acquireFailOracle with beginFrame := .error }
      { runningHMD with m_lastFrameState := ⟨1000, 16000000, false⟩ }).2.1 = true :=
  (c10_norender_empty_true { acquireFailOracle with beginFrame := .error }
    { runningHMD with m_lastFrameState := ⟨1000, 16000000, false⟩ } rfl).2.1

/-- C5 counterexample: an empty submitFrame() cycle does not touch the
accumulating report; with 5 accumulated frames before the call, there are
still 5 after it, so not every submit cycle increments the total-frames
counter. -/
theorem c5_empty_submit_not_counted :
    (submitFrameEmpty .success .success
        runningHMD).1.m_currentFrameRefreshReport.totalRenderedFrames = 5
    ∧ runningHMD.m_currentFrameRefreshReport.totalRenderedFrames = 5 :=
  ⟨rfl, rfl⟩

/-- C5 (amended): only a rendering submitFrame(renderFunc) cycle with
shouldRender true and a successful begin-frame updates the refresh report
(the empty submitFrame and the aborted paths leave it untouched); each such
update advances the window that receives this cycle (the accumulating one,
or the just-published one when the window reaches 100): total frames grow
by one, missed frames grow by one exactly when the predicted display time
already elapsed, and the expected framerate is set to
1e9 / predictedDisplayPeriod. -/
theorem c5_amended (o : FrameOracle) (s : HMD) :
    ((submitFrameEmpty o.beginFrame o.endFrame s).1 = s)
    ∧ (shouldRender s = false → (submitFrameRender o s).1 = s)
    ∧ (o.beginFrame = XrResult.error → (submitFrameRender o s).1 = s)
    ∧ (shouldRender s = true → o.beginFrame = XrResult.success →
        (submitFrameRender o s).1 = updateRefreshReport o.nowNs o.nowClk s
        ∧ (if s.m_currentFrameRefreshReport.totalRenderedFrames + 1 = 100
            then (updateRefreshReport o.nowNs o.nowClk s).m_lastFrameRefreshReport
            else (updateRefreshReport o.nowNs o.nowClk
                s).m_currentFrameRefreshReport).totalRenderedFrames
          = s.m_currentFrameRefreshReport.totalRenderedFrames + 1
        ∧ (if s.m_currentFrameRefreshReport.totalRenderedFrames + 1 = 100
            then (updateRefreshReport o.nowNs o.nowClk s).m_lastFrameRefreshReport
            else (updateRefreshReport o.nowNs o.nowClk
                s).m_currentFrameRefreshReport).nbMissedFrames
          = s.m_currentFrameRefreshReport.nbMissedFrames
            + (if s.m_lastFrameState.predictedDisplayTime - o.nowNs < 0 then 1 else 0)
        ∧ (if s.m_currentFrameRefreshReport.totalRenderedFrames + 1 = 100
            then (updateRefreshReport o.nowNs o.nowClk s).m_lastFrameRefreshReport
            else (updateRefreshReport o.nowNs o.nowClk
                s).m_currentFrameRefreshReport).expectedFramerate
          = 1000000000 / (s.m_lastFrameState.predictedDisplayPeriod : Rat)) := by
  refine ⟨?_, ?_, ?_, ?_⟩
  · unfold submitFrameEmpty
    split <;> rfl
  · intro h
    unfold submitFrameRender
    rw [if_pos h]
    unfold submitFrameEmpty
    split <;> rfl
  · intro h
    unfold submitFrameRender
    by_cases hsr : shouldRender s = false
    · rw [if_pos hsr]
      unfold submitFrameEmpty
      split <;> rfl
    · rw [if_neg hsr, if_neg (by simp [xrCheck, h])]
  · intro hsr hb
    rw [show submitFrameRender o s = (updateRefreshReport o.nowNs o.nowClk s,
        xrCheck o.endFrame,
        XrCall.beginFrame :: (viewLoopFrom o 0 s.m_viewCount ++ [XrCall.endFrame 1]))
      from by unfold submitFrameRender; rw [if_neg (by simp [hsr]), if_pos (by simp [xrCheck, hb])]]
    refine ⟨rfl, ?_⟩
    unfold updateRefreshReport
    by_cases hm : s.m_lastFrameState.predictedDisplayTime - o.nowNs < 0 <;>
      by_cases h100 : s.m_currentFrameRefreshReport.totalRenderedFrames + 1 = 100 <;>
        simp [hm, h100]

/-- C5 witness: a rendering cycle with shouldRender true and successful
begin-frame applies updateRefreshReport to the state. -/
theorem c5_witness :
    (submitFrameRender acquireFailOracle runningHMD).1
      = updateRefreshReport acquireFailOracle.nowNs acquireFailOracle.nowClk runningHMD :=
  ((c5_amended acquireFailOracle runningHMD).2.2.2 rfl rfl).1

/-- Helper: closed form of one updateRefreshReport step. -/
theorem updateRefreshReport_eq (nowNs nowClk : Int) (s : HMD) :
    updateRefreshReport nowNs nowClk s =
      if s.m_currentFrameRefreshReport.totalRenderedFrames + 1 = 100 then
        { s with
          m_lastFrameRefreshReport :=
            ⟨s.m_currentFrameRefreshReport.nbMissedFrames
                + (if s.m_lastFrameState.predictedDisplayTime - nowNs < 0 then 1 else 0),
              s.m_currentFrameRefreshReport.totalRenderedFrames + 1,
              1000000000 / (s.m_lastFrameState.predictedDisplayPeriod : Rat),
              1000 * ((s.m_currentFrameRefreshReport.totalRenderedFrames + 1 : Nat) : Rat)
                / (((nowClk - s.m_currentFrameRefreshReport.firstFrameTimestamp).tdiv
                    1000000 : Int) : Rat),
              s.m_currentFrameRefreshReport.firstFrameTimestamp⟩,
          m_currentFrameRefreshReport := ⟨0, 0, 0, 0, nowClk⟩ }
      else
        { s with
          m_currentFrameRefreshReport :=
            ⟨s.m_currentFrameRefreshReport.nbMissedFrames
                + (if s.m_lastFrameState.predictedDisplayTime - nowNs < 0 then 1 else 0),
              s.m_currentFrameRefreshReport.totalRenderedFrames + 1,
              1000000000 / (s.m_lastFrameState.predictedDisplayPeriod : Rat),
              s.m_currentFrameRefreshReport.measuredFramerate,
              s.m_currentFrameRefreshReport.firstFrameTimestamp⟩ } := by
  unfold updateRefreshReport
  by_cases hm : s.m_lastFrameState.predictedDisplayTime - nowNs < 0 <;>
    by_cases h100 : s.m_currentFrameRefreshReport.totalRenderedFrames + 1 = 100 <;>
      simp [hm, h100]

/-- Helper: while the accumulating window holds fewer than 100 frames, each
no-miss cycle with period P just advances the counters: after k ≤ 99 cycles
from a fresh window the accumulating report holds k frames, no misses,
expected rate 1e9/P (0 before the first cycle), measured rate 0, the
original window timestamp, and the published report is untouched. -/
theorem runReportCycles_window (fr : Nat → FrameStateData) (nowNs nowClk : Nat → Int)
    (s : HMD) (P t0 : Int)
    (hcur : s.m_currentFrameRefreshReport = ⟨0, 0, 0, 0, t0⟩)
    (hP : ∀ k < 100, (fr k).predictedDisplayPeriod = P)
    (hmiss : ∀ k < 100, 0 ≤ (fr k).predictedDisplayTime - nowNs k) :
    ∀ k ≤ 99,
      (runReportCycles fr nowNs nowClk s k).m_currentFrameRefreshReport
        = ⟨0, k, if k = 0 then 0 else 1000000000 / (P : Rat), 0, t0⟩
      ∧ (runReportCycles fr nowNs nowClk s k).m_lastFrameRefreshReport
        = s.m_lastFrameRefreshReport := by
  intro k
  induction k with
  | zero =>
    intro _
    refine ⟨?_, rfl⟩
    simp [runReportCycles, hcur]
  | succ k ih =>
    intro hk
    obtain ⟨ihcur, ihlast⟩ := ih (by omega)
    have hPk := hP k (by omega)
    have hmk : ¬((fr k).predictedDisplayTime - nowNs k < 0) :=
      not_lt.mpr (hmiss k (by omega))
    have h100 : k + 1 ≠ 100 := by omega
    unfold runReportCycles
    rw [updateRefreshReport_eq]
    simp [ihcur, ihlast, hPk, hmk, h100]

/-- C7: starting from a fresh accumulating window stamped t0, after exactly
100 cycles with a fixed predicted display period P and no missed deadline,
the window is published as the last report with expected framerate 1e9/P,
100 total frames, zero missed frames and the measured rate computed from
the elapsed wall clock since t0 (1000 * 100 / elapsed-milliseconds,
truncated); the new accumulating window restarts at zero total frames,
stamped with the wall clock of the publishing cycle. -/
theorem c7_report_window (fr : Nat → FrameStateData) (nowNs nowClk : Nat → Int)
    (s : HMD) (P t0 : Int)
    (hcur : s.m_currentFrameRefreshReport = ⟨0, 0, 0, 0, t0⟩)
    (hP : ∀ k < 100, (fr k).predictedDisplayPeriod = P)
    (hmiss : ∀ k < 100, 0 ≤ (fr k).predictedDisplayTime - nowNs k) :
    (runReportCycles fr nowNs nowClk s 100).m_lastFrameRefreshReport.expectedFramerate
      = 1000000000 / (P : Rat)
    ∧ (runReportCycles fr nowNs nowClk s 100).m_lastFrameRefreshReport.totalRenderedFrames
      = 100
    ∧ (runReportCycles fr nowNs nowClk s 100).m_lastFrameRefreshReport.nbMissedFrames = 0
    ∧ (runReportCycles fr nowNs nowClk s 100).m_lastFrameRefreshReport.measuredFramerate
      = 1000 * (100 : Rat) / (((nowClk 99 - t0).tdiv 1000000 : Int) : Rat)
    ∧ (runReportCycles fr nowNs nowClk
        s 100).m_currentFrameRefreshReport.totalRenderedFrames = 0
    ∧ (runReportCycles fr nowNs nowClk
        s 100).m_currentFrameRefreshReport.firstFrameTimestamp = nowClk 99 := by
  obtain ⟨hcur99, _⟩ := runReportCycles_window fr nowNs nowClk s P t0 hcur hP hmiss 99
    (by omega)
  have hP99 := hP 99 (by omega)
  have hm99 : ¬((fr 99).predictedDisplayTime - nowNs 99 < 0) :=
    not_lt.mpr (hmiss 99 (by omega))
  rw [show (100 : Nat) = 99 + 1 from rfl]
  unfold runReportCycles
  rw [updateRefreshReport_eq]
  simp [hcur99, hP99, hm99]

/-- C7 witness: the fresh initial state, constant period 16000000 ns,
predicted display times far in the future, zero counter clock, 50 ms of
wall clock per frame: after 100 cycles the published report holds 100
frames. -/
theorem c7_witness :
    (runReportCycles steadyFrames (fun _ => 0) steadyClock
        initialHMD 100).m_lastFrameRefreshReport.totalRenderedFrames = 100 :=
  (c7_report_window steadyFrames (fun _ => 0) steadyClock initialHMD 16000000 0
    rfl (fun k _ => rfl) (fun k _ => by norm_num [steadyFrames])).2.1

/-- Helper: setupIntact is reflexive. -/
theorem setupIntact_rfl (a : HMD) : setupIntact a a :=
  ⟨rfl, rfl, rfl, rfl, rfl, rfl⟩

/-- Helper: setupIntact is transitive. -/
theorem setupIntact_trans {a b c : HMD} (h1 : setupIntact a b) (h2 : setupIntact b c) :
    setupIntact a c := by
  obtain ⟨p1, q1, r1, u1, v1, w1⟩ := h1
  obtain ⟨p2, q2, r2, u2, v2, w2⟩ := h2
  exact ⟨p2.trans p1, q2.trans q1, r2.trans r1, u2.trans u1, v2.trans v1, w2.trans w1⟩

/-- Helper: the session state handler never touches the populated
resources. -/
theorem setupIntact_updateState (s : HMD) (st : XrSessionState) (r : XrResult) :
    setupIntact s (updateCurrentSessionState s st r) := by
  unfold updateCurrentSessionState setupIntact
  cases st <;> simp <;> split_ifs <;> simp

/-- Helper: the event dispatch never touches the populated resources. -/
theorem setupIntact_handleEvent (s : HMD) (e : RuntimeEvent) :
    setupIntact s (handleEvent s e) := by
  cases e with
  | instanceLossPending dR g gR =>
    unfold handleEvent
    refine setupIntact_trans (b := if xrCheck dR then s else { s with m_status := .FAILURE })
      ?_ (setupIntact_updateState _ _ _)
    split_ifs <;> simp [setupIntact]
  | sessionStateChanged st r => exact setupIntact_updateState s st r
  | interactionProfileChanged => exact setupIntact_rfl s
  | unhandled => exact setupIntact_rfl s

/-- Helper: one xrPollEvent dispatch never touches the populated
resources. -/
theorem setupIntact_pollOnce (d : StepData) (s : HMD) : setupIntact s (pollOnce d s) := by
  unfold pollOnce
  rcases hp : d.poll with e | _ | _ <;> simp only [hp]
  · exact setupIntact_handleEvent s e
  · exact setupIntact_rfl s
  · exact setupIntact_rfl s

/-- Helper: waitNextFrame only rewrites m_lastFrameState. -/
theorem setupIntact_waitNextFrame (d : StepData) (s : HMD) :
    setupIntact s (waitNextFrame d s).1 := by
  unfold waitNextFrame
  split_ifs <;> simp [setupIntact]

/-- Helper: the empty submitFrame leaves the member state unchanged. -/
theorem submitFrameEmpty_fst (b e : XrResult) (s : HMD) :
    (submitFrameEmpty b e s).1 = s := by
  unfold submitFrameEmpty
  split <;> rfl

/-- Helper: one pollEvents level never touches the populated resources. -/
theorem setupIntact_pollStepState (d : StepData) (s : HMD) :
    setupIntact s (pollStepState d s) := by
  unfold pollStepState
  split_ifs with h
  · rw [submitFrameEmpty_fst]
    exact setupIntact_trans (setupIntact_pollOnce d s) (setupIntact_waitNextFrame d _)
  · exact setupIntact_pollOnce d s

/-- Helper: the beginning pump does not change the status computed by the
event dispatch. -/
theorem pollStepState_status (d : StepData) (s : HMD) :
    (pollStepState d s).m_status = (pollOnce d s).m_status := by
  unfold pollStepState
  split_ifs with h
  · rw [submitFrameEmpty_fst]
    unfold waitNextFrame
    split_ifs <;> rfl
  · rfl

/-- Helper: pollEvents never touches the populated resources. -/
theorem setupIntact_pollEventsFuel (ev : Nat → StepData) :
    ∀ fuel s idx, setupIntact s (pollEventsFuel ev fuel s idx).1 := by
  intro fuel
  induction fuel with
  | zero => intro s idx; exact setupIntact_rfl s
  | succ fuel ih =>
    intro s idx
    unfold pollEventsFuel
    split_ifs with h
    · exact setupIntact_trans (setupIntact_pollStepState _ s) (ih _ _)
    · exact setupIntact_pollStepState _ s

/-- Helper: the synchronize loop never touches the populated resources. -/
theorem setupIntact_syncFuel (ev : Nat → StepData) :
    ∀ fuel s idx, setupIntact s (synchronizeSessionFuel ev fuel s idx).1 := by
  intro fuel
  induction fuel with
  | zero => intro s idx; exact setupIntact_rfl s
  | succ fuel ih =>
    intro s idx
    unfold synchronizeSessionFuel
    split_ifs with h
    · exact setupIntact_rfl s
    · rcases hpoll : pollEventsFuel ev fuel s idx with ⟨s₁, idx₁, r⟩
      have hint : setupIntact s s₁ := by
        have := setupIntact_pollEventsFuel ev fuel s idx
        rwa [hpoll] at this
      cases r with
      | none => simpa [hpoll] using hint
      | some b =>
        simp only [hpoll]
        split_ifs with hf
        · exact hint
        · exact setupIntact_trans hint (ih s₁ idx₁)

/-- Helper: when the synchronize loop reports true, the status is
SYNCHRONIZED. -/
theorem syncFuel_true_status (ev : Nat → StepData) :
    ∀ fuel s idx s' idx', synchronizeSessionFuel ev fuel s idx = (s', idx', some true) →
      s'.m_status = SessionStatus.SYNCHRONIZED := by
  intro fuel
  induction fuel with
  | zero =>
    intro s idx s' idx' h
    simp [synchronizeSessionFuel] at h
  | succ fuel ih =>
    intro s idx s' idx' h
    unfold synchronizeSessionFuel at h
    split_ifs at h with hs
    · obtain ⟨h1, _, _⟩ := Prod.mk.injEq .. ▸ h
      injection h with h1 h2
      subst h1
      exact hs
    · rcases hpoll : pollEventsFuel ev fuel s idx with ⟨s₁, idx₁, r⟩
      rw [hpoll] at h
      cases r with
      | none =>
        simp at h
      | some b =>
        simp only at h
        split_ifs at h with hf
        · injection h with h1 h2
          injection h2 with h2 h3
          simp at h3
        · exact ih s₁ idx₁ s' idx' h

/-- Helper: a successful per-view swapchain loop over k views adds exactly
k fully set-up views and changes nothing else. -/
theorem swapchainViewLoop_true (o : StartOracle) :
    ∀ k i s, (swapchainViewLoop o i k s).2 = true →
      (swapchainViewLoop o i k s).1
        = { s with m_swapchainsReady := s.m_swapchainsReady + k } := by
  intro k
  induction k with
  | zero =>
    intro i s _
    show s = _
    simp
  | succ k ih =>
    intro i s h
    unfold swapchainViewLoop at h ⊢
    by_cases h1 : xrCheck (o.createSwapchainR i)
    · rw [if_pos h1] at h ⊢
      by_cases h2 : xrCheck (o.enumImagesCountR i)
      · rw [if_pos h2] at h ⊢
        by_cases h3 : xrCheck (o.enumImagesR i)
        · rw [if_pos h3] at h ⊢
          rw [ih _ _ h]
          simp [HMD.mk.injEq]
          omega
        · rw [if_neg h3] at h
          simp at h
      · rw [if_neg h2] at h
        simp at h
    · rw [if_neg h1] at h
      simp at h

/-- Helper: a successful createSession only marks the session live. -/
theorem createSession_true (o : StartOracle) (s : HMD) :
    (createSession o s).2 = true →
      (createSession o s).1 = { s with m_sessionValid := true } := by
  unfold createSession
  split_ifs <;> simp

/-- Helper: a successful createReferenceSpace only marks the play space
created. -/
theorem createReferenceSpace_true (o : StartOracle) (s : HMD) :
    (createReferenceSpace o s).2 = true →
      (createReferenceSpace o s).1 = { s with m_playSpaceCreated := true } := by
  unfold createReferenceSpace
  split_ifs <;> simp

/-- Helper: a successful createSwapchain populates all per-view arrays for
the discovered view count. -/
theorem createSwapchain_true (o : StartOracle) (s : HMD) :
    (createSwapchain o s).2 = true →
      (createSwapchain o s).1
        = { s with
            m_swapchainsAllocated := true
            m_swapchainsReady := s.m_viewCount
            viewsAllocated := true
            projViewsAllocated := true } := by
  unfold createSwapchain
  split_ifs with h1 h2
  · rcases hl : swapchainViewLoop o 0 s.m_viewCount
        { s with m_swapchainsAllocated := true, m_swapchainsReady := 0 } with ⟨sl, bl⟩
    cases bl with
    | false => simp
    | true =>
      intro _
      have := swapchainViewLoop_true o s.m_viewCount 0
        { s with m_swapchainsAllocated := true, m_swapchainsReady := 0 } (by rw [hl])
      rw [hl] at this
      simp only at this
      subst this
      simp [HMD.mk.injEq]
  · simp
  · simp

/-- Helper: createSession succeeds exactly when xrCreateSession does. -/
theorem createSession_snd (o : StartOracle) (s : HMD) :
    (createSession o s).2 = xrCheck o.createSessionR := by
  unfold createSession
  split_ifs with h <;> simp [h]

/-- Helper: createReferenceSpace succeeds exactly when
xrCreateReferenceSpace does. -/
theorem createReferenceSpace_snd (o : StartOracle) (s : HMD) :
    (createReferenceSpace o s).2 = xrCheck o.createRefSpaceR := by
  unfold createReferenceSpace
  split_ifs with h <;> simp [h]

/-- C3: startSession attempts its stages in the order createSession,
createReferenceSpace, createSwapchain, synchronize; the attempted-stage
list is always a prefix of that order, a failing stage is the last one
attempted and makes the whole call return false, and a true return implies
all four stages ran and succeeded, with final status SYNCHRONIZED and the
reference space, swapchain arrays, image arrays, views and projection
views populated for the discovered view count. -/
theorem c3_startSession (o : StartOracle) (ev : Nat → StepData) (fuel : Nat) (s : HMD) :
    ((startSession o ev fuel s).2.1 = []
      ∨ (startSession o ev fuel s).2.1 = [Stage.createSessionStage]
      ∨ (startSession o ev fuel s).2.1
          = [Stage.createSessionStage, Stage.createRefSpaceStage]
      ∨ (startSession o ev fuel s).2.1
          = [Stage.createSessionStage, Stage.createRefSpaceStage, Stage.createSwapchainStage]
      ∨ (startSession o ev fuel s).2.1
          = [Stage.createSessionStage, Stage.createRefSpaceStage, Stage.createSwapchainStage,
              Stage.synchronizeStage])
    ∧ (o.glewOk = true → xrCheck o.createSessionR = false →
        (startSession o ev fuel s).2.1 = [Stage.createSessionStage]
        ∧ (startSession o ev fuel s).2.2 = some false)
    ∧ (o.glewOk = true → xrCheck o.createSessionR = true → xrCheck o.createRefSpaceR = false →
        (startSession o ev fuel s).2.1 = [Stage.createSessionStage, Stage.createRefSpaceStage]
        ∧ (startSession o ev fuel s).2.2 = some false)
    ∧ (o.glewOk = true → xrCheck o.createSessionR = true → xrCheck o.createRefSpaceR = true →
        (createSwapchain o (createReferenceSpace o (createSession o s).1).1).2 = false →
        (startSession o ev fuel s).2.1
          = [Stage.createSessionStage, Stage.createRefSpaceStage, Stage.createSwapchainStage]
        ∧ (startSession o ev fuel s).2.2 = some false)
    ∧ ((startSession o ev fuel s).2.2 = some true →
        (startSession o ev fuel s).2.1
          = [Stage.createSessionStage, Stage.createRefSpaceStage, Stage.createSwapchainStage,
              Stage.synchronizeStage]
        ∧ (startSession o ev fuel s).1.m_status = SessionStatus.SYNCHRONIZED
        ∧ (startSession o ev fuel s).1.m_playSpaceCreated = true
        ∧ (startSession o ev fuel s).1.m_swapchainsAllocated = true
        ∧ (startSession o ev fuel s).1.m_swapchainsReady
            = (startSession o ev fuel s).1.m_viewCount
        ∧ (startSession o ev fuel s).1.viewsAllocated = true
        ∧ (startSession o ev fuel s).1.projViewsAllocated = true) := by
  unfold startSession
  split_ifs with hg h1 h2 h3
  · refine ⟨Or.inl rfl, ?_, ?_, ?_, ?_⟩
    · intro hglew _
      simp [hglew] at hg
    · intro hglew _ _
      simp [hglew] at hg
    · intro hglew _ _ _
      simp [hglew] at hg
    · intro hr
      simp at hr
  · refine ⟨Or.inr (Or.inl rfl), ?_, ?_, ?_, ?_⟩
    · intro _ _
      exact ⟨rfl, rfl⟩
    · intro _ hcs _
      rw [createSession_snd, hcs] at h1
      cases h1
    · intro _ hcs _ _
      rw [createSession_snd, hcs] at h1
      cases h1
    · intro hr
      simp at hr
  · refine ⟨Or.inr (Or.inr (Or.inl rfl)), ?_, ?_, ?_, ?_⟩
    · intro _ hcs
      rw [createSession_snd, hcs] at h1
      exact absurd rfl h1
    · intro _ _ _
      exact ⟨rfl, rfl⟩
    · intro _ _ hrs _
      rw [createReferenceSpace_snd, hrs] at h2
      cases h2
    · intro hr
      simp at hr
  · refine ⟨Or.inr (Or.inr (Or.inr (Or.inl rfl))), ?_, ?_, ?_, ?_⟩
    · intro _ hcs
      rw [createSession_snd, hcs] at h1
      exact absurd rfl h1
    · intro _ _ hrs
      rw [createReferenceSpace_snd, hrs] at h2
      exact absurd rfl h2
    · intro _ _ _ _
      exact ⟨rfl, rfl⟩
    · intro hr
      simp at hr
  · rcases hsync : synchronizeSessionFuel ev fuel
        (createSwapchain o (createReferenceSpace o (createSession o s).1).1).1 0
      with ⟨s₄, i₄, r₄⟩
    have hint := setupIntact_syncFuel ev fuel
        (createSwapchain o (createReferenceSpace o (createSession o s).1).1).1 0
    rw [hsync] at hint
    have hcs' : (createSession o s).2 = true := by
      revert h1; cases (createSession o s).2 <;> simp
    have hrs' : (createReferenceSpace o (createSession o s).1).2 = true := by
      revert h2; cases (createReferenceSpace o (createSession o s).1).2 <;> simp
    have hsw' :
        (createSwapchain o (createReferenceSpace o (createSession o s).1).1).2 = true := by
      revert h3
      cases (createSwapchain o (createReferenceSpace o (createSession o s).1).1).2 <;> simp
    have e1 := createSession_true o s hcs'
    have e2 := createReferenceSpace_true o (createSession o s).1 hrs'
    have e3 := createSwapchain_true o (createReferenceSpace o (createSession o s).1).1 hsw'
    obtain ⟨iplay, ialloc, iready, iviews, iproj, ivc⟩ := hint
    refine ⟨Or.inr (Or.inr (Or.inr (Or.inr rfl))), ?_, ?_, ?_, ?_⟩
    · intro _ hcs
      rw [createSession_snd, hcs] at h1
      exact absurd rfl h1
    · intro _ _ hrs
      rw [createReferenceSpace_snd, hrs] at h2
      exact absurd rfl h2
    · intro _ _ _ hsw
      rw [hsw] at hsw'
      cases hsw'
    · intro hr
      dsimp only at hr iplay ialloc iready iviews iproj ivc ⊢
      subst hr
      refine ⟨rfl, ?_, ?_, ?_, ?_, ?_, ?_⟩
      · exact syncFuel_true_status ev fuel _ 0 s₄ i₄ hsync
      · rw [iplay, e3, e2, e1]
      · rw [ialloc, e3]
      · rw [iready, ivc, e3, e2, e1]
      · rw [iviews, e3]
      · rw [iproj, e3]

/-- C3 witness: all stages succeed and the runtime reports SYNCHRONIZED at
the first poll; startSession ends SYNCHRONIZED. -/
theorem c3_witness :
    (startSession allOkStart (fun _ => syncStep) 3 twoViewInit).1.m_status
      = SessionStatus.SYNCHRONIZED :=
  ((c3_startSession allOkStart (fun _ => syncStep) 3 twoViewInit).2.2.2.2
    (by decide)).2.1

/-- C6: the final return m_status != SessionStatus::STOPPED of closeSession
is inverted with respect to the false-on-failure convention: a fully
successful close of an IDLE session (xrDestroySession succeeds, status
reaches STOPPED) returns false, while a close whose event-polling loop hits
a failing runtime call (forcing FAILURE) returns true. -/
theorem c6_closeSession_inverted_return :
    (closeSession .success .success (fun _ => syncStep) 0 idleCloseHMD).1.m_status
      = SessionStatus.STOPPED
    ∧ (closeSession .success .success (fun _ => syncStep) 0 idleCloseHMD).2 = some false
    ∧ (closeSession .success .success (fun _ => failDuringCloseStep) 3
        runningHMD).1.m_status = SessionStatus.FAILURE
    ∧ (closeSession .success .success (fun _ => failDuringCloseStep) 3
        runningHMD).2 = some true := by
  refine ⟨?_, ?_, ?_, ?_⟩ <;> decide

/-- C8: setResolution while a session is running leaves the stored
resolution (and the whole state) unchanged and warns; while no session is
running it stores the new value without warning.  The C++ method returns
void, so no boolean failure is reported in either case. -/
theorem c8_setResolution (s : HMD) (res : Int × Int) :
    (isSessionRunning s = true →
      getResolution (setResolution s res).1 = getResolution s
      ∧ (setResolution s res).1 = s
      ∧ (setResolution s res).2 = true)
    ∧ (isSessionRunning s = false →
      getResolution (setResolution s res).1 = res
      ∧ (setResolution s res).2 = false) := by
  unfold setResolution getResolution
  constructor
  · intro h
    rw [if_neg (by simp [h])]
    exact ⟨rfl, rfl, rfl⟩
  · intro h
    rw [if_pos h]
    exact ⟨rfl, rfl⟩

/-- C8 witness: with a running session the stored resolution survives a
setResolution call; with no session running the value is stored. -/
theorem c8_witness :
    getResolution (setResolution runningHMD (640, 480)).1 = getResolution runningHMD
    ∧ getResolution (setResolution initialHMD (800, 600)).1 = (800, 600) :=
  ⟨((c8_setResolution runningHMD (640, 480)).1 rfl).1,
    ((c8_setResolution initialHMD (800, 600)).2 rfl).1⟩

/-- C4 counterexample: for an out-of-range eye index, getPoseQuaternion
returns the default-constructed Quaternionf, whose Eigen default
constructor leaves the coefficients uninitialized; whatever junk the
storage holds (here 1, 2, 3, 4) is returned, which is not a zero-valued
result. -/
theorem c4_quaternion_not_zero :
    getPoseQuaternion 0 symmetricFovViews ⟨1, 2, 3, 4⟩ Eye.LEFT = (true, ⟨1, 2, 3, 4⟩)
    ∧ (⟨1, 2, 3, 4⟩ : XrQuaternionfR) ≠ ⟨0, 0, 0, 0⟩ := by
  constructor
  · rfl
  · intro h
    have hx : (1 : Real) = 0 := congrArg XrQuaternionfR.x h
    exact one_ne_zero hx

/-- C4 (amended): for an eye whose view index is at least the discovered
view count, getPoseOrientation, getPosePosition, getFieldOfView and
getScreenCenter log a warning and return a zero-valued result;
getPoseQuaternion logs the same warning but returns the uninitialized
default-constructed quaternion rather than a zero-valued one.  None of the
accessors fails. -/
theorem c4_amended (viewCount : Nat) (views : Nat → XrViewR) (junk : XrQuaternionfR)
    (eye : Eye) (unit : AngleUnit) (h : viewCount ≤ eyeToViewIndex eye) :
    getPoseOrientation viewCount views eye unit = (true, (0, 0, 0))
    ∧ getPosePosition viewCount views eye = (true, (0, 0, 0))
    ∧ getFieldOfView viewCount views eye unit = (true, (0, 0, 0, 0))
    ∧ getScreenCenter viewCount views eye = (true, (0, 0))
    ∧ getPoseQuaternion viewCount views junk eye = (true, junk) := by
  unfold getPoseOrientation getPosePosition getFieldOfView getScreenCenter getPoseQuaternion
  simp [if_pos h]

/-- C4 witness: with no discovered view, the left-eye queries return the
zero values and the warning, and the quaternion query returns the junk. -/
theorem c4_witness :
    getScreenCenter 0 symmetricFovViews Eye.LEFT = (true, (0, 0))
    ∧ getPoseQuaternion 0 symmetricFovViews ⟨5, 6, 7, 8⟩ Eye.LEFT = (true, ⟨5, 6, 7, 8⟩) := by
  have h := c4_amended 0 symmetricFovViews ⟨5, 6, 7, 8⟩ Eye.LEFT AngleUnit.RADIAN
    (by decide)
  exact ⟨h.2.2.2.1, h.2.2.2.2⟩

/-- C9: for an in-range eye whose field-of-view angles are symmetric
(angleLeft = -angleRight, angleUp = -angleDown) with magnitudes strictly
between 0 and pi/2, getScreenCenter returns exactly (1/2, 1/2). -/
theorem c9_screen_center_symmetric (viewCount : Nat) (views : Nat → XrViewR) (eye : Eye)
    (hin : eyeToViewIndex eye < viewCount)
    (hlr : (views (eyeToViewIndex eye)).fov.angleLeft
      = -(views (eyeToViewIndex eye)).fov.angleRight)
    (hud : (views (eyeToViewIndex eye)).fov.angleUp
      = -(views (eyeToViewIndex eye)).fov.angleDown)
    (hr1 : 0 < |(views (eyeToViewIndex eye)).fov.angleRight|)
    (hr2 : |(views (eyeToViewIndex eye)).fov.angleRight| < Real.pi / 2)
    (hu1 : 0 < |(views (eyeToViewIndex eye)).fov.angleUp|)
    (hu2 : |(views (eyeToViewIndex eye)).fov.angleUp| < Real.pi / 2) :
    getScreenCenter viewCount views eye = (false, (1 / 2, 1 / 2)) := by
  have half : ∀ t : Real, 0 < t → t / (t + t) = 1 / 2 := by
    intro t ht
    have h2 : t + t ≠ 0 := by
      intro hz
      nlinarith
    field_simp
    ring
  unfold getScreenCenter
  rw [if_neg (by omega)]
  have habsL : |(views (eyeToViewIndex eye)).fov.angleLeft|
      = |(views (eyeToViewIndex eye)).fov.angleRight| := by
    rw [hlr, abs_neg]
  have habsD : |(views (eyeToViewIndex eye)).fov.angleDown|
      = |(views (eyeToViewIndex eye)).fov.angleUp| := by
    rw [show (views (eyeToViewIndex eye)).fov.angleDown
        = -(views (eyeToViewIndex eye)).fov.angleUp from by rw [hud]; ring, abs_neg]
  have htR : 0 < Real.tan |(views (eyeToViewIndex eye)).fov.angleRight| :=
    Real.tan_pos_of_pos_of_lt_pi_div_two hr1 hr2
  have htU : 0 < Real.tan |(views (eyeToViewIndex eye)).fov.angleUp| :=
    Real.tan_pos_of_pos_of_lt_pi_div_two hu1 hu2
  rw [habsL, habsD, half _ htR, half _ htU]

/-- C9 witness: symmetric pi/4 field-of-view angles for the left eye of a
one-view configuration give screen center (1/2, 1/2). -/
theorem c9_witness :
    getScreenCenter 1 symmetricFovViews Eye.LEFT = (false, (1 / 2, 1 / 2)) := by
  have hpi := Real.pi_pos
  have habs : |Real.pi / 4| = Real.pi / 4 := abs_of_pos (by linarith)
  refine c9_screen_center_symmetric 1 symmetricFovViews Eye.LEFT (by decide) rfl ?_ ?_ ?_ ?_ ?_
  · show Real.pi / 4 = -(-(Real.pi / 4))
    rw [neg_neg]
  · show 0 < |Real.pi / 4|
    rw [habs]
    linarith
  · show |Real.pi / 4| < Real.pi / 2
    rw [habs]
    linarith
  · show 0 < |Real.pi / 4|
    rw [habs]
    linarith
  · show |Real.pi / 4| < Real.pi / 2
    rw [habs]
    linarith

end SibrXR
